import Mathlib

/-!
Verification of the Greenland REE dashboard's scenario-scoring logic
(`src/app.py`): the `load_data` table construction with its derived
columns, and the Tab 3 "Scenario Modeling" block that copies the
baseline table, applies policy/investment deltas, clamps the five
score columns to [0, 100] and computes a per-row `score_change`.

Floats in the source hold exact decimal values throughout, so scores
and parameters are embedded as rationals (`ℚ`).
-/

namespace GreenlandREE

/-- A row of the deposits table, with the raw columns of `load_data`'s
`data` dict and the derived columns computed at load time. -/
structure Deposit where
  deposit_name : String
  latitude : ℚ
  longitude : ℚ
  resource_mt : ℚ
  treo_grade_pct : ℚ
  heavy_ree_pct : ℚ
  owner : String
  chinese_stake_pct : ℚ
  status : String
  uranium_ppm : ℚ
  strategic_score : ℚ
  geological_score : ℚ
  regulatory_score : ℚ
  ownership_score : ℚ
  infrastructure_score : ℚ
  geopolitical_score : ℚ
  discovery_year : ℕ
  ice_free_months : ℕ
  port_distance_km : ℚ
  ownership_type : String
  uranium_status : String
  score_category : Option String
  deriving DecidableEq, Repr

/-- Derived column `ownership_type`:
`'Chinese Exposure' if x > 0 else 'Western Control'` on `chinese_stake_pct`. -/
def ownershipType (stake : ℚ) : String :=
  if stake > 0 then "Chinese Exposure" else "Western Control"

/-- Derived column `uranium_status`:
`'Blocked (>100 ppm)' if x > 100 else 'Clear (<100 ppm)'` on `uranium_ppm`. -/
def uraniumStatus (ppm : ℚ) : String :=
  if ppm > 100 then "Blocked (>100 ppm)" else "Clear (<100 ppm)"

/-- Derived column `score_category`: `pd.cut` of `strategic_score` with
`bins=[0, 40, 60, 80, 100]` and `labels=['Low','Medium','High','Very High']`
(right-closed, left-open intervals; values outside every bin get NaN,
embedded as `none`). -/
def scoreCategory (s : ℚ) : Option String :=
  if 0 < s ∧ s ≤ 40 then some "Low"
  else if 40 < s ∧ s ≤ 60 then some "Medium"
  else if 60 < s ∧ s ≤ 80 then some "High"
  else if 80 < s ∧ s ≤ 100 then some "Very High"
  else none

/-- Build one row from the raw columns, filling the derived columns the way
`load_data` does. -/
def mkDeposit (name : String) (lat lon res grade hree : ℚ) (owner : String)
    (stake : ℚ) (status : String) (ppm strat geo reg own infra geopol : ℚ)
    (year ice : ℕ) (port : ℚ) : Deposit :=
  { deposit_name := name
    latitude := lat
    longitude := lon
    resource_mt := res
    treo_grade_pct := grade
    heavy_ree_pct := hree
    owner := owner
    chinese_stake_pct := stake
    status := status
    uranium_ppm := ppm
    strategic_score := strat
    geological_score := geo
    regulatory_score := reg
    ownership_score := own
    infrastructure_score := infra
    geopolitical_score := geopol
    discovery_year := year
    ice_free_months := ice
    port_distance_km := port
    ownership_type := ownershipType stake
    uranium_status := uraniumStatus ppm
    score_category := scoreCategory strat }

/-- Row 0 of the `load_data` table. -/
def tanbreez : Deposit :=
  mkDeposit "Tanbreez (Kringlerne)" (60.87 : ℚ) (-45.88 : ℚ) 4000 (0.60 : ℚ) 30
    "Critical Metals Corp" 0 "Advancing" 15 80 85 90 95 60 70 2007 4 15

/-- Row 1 of the `load_data` table. -/
def kvanefjeld : Deposit :=
  mkDeposit "Kvanefjeld" (60.98 : ℚ) (-45.92 : ℚ) 1010 (1.10 : ℚ) 12
    "Energy Transition Minerals" (9.21 : ℚ) "Blocked" 285 52 90 20 50 65 55 1956 4 12

/-- Row 2 of the `load_data` table. -/
def sarfartoq : Deposit :=
  mkDeposit "Sarfartoq" (66.48 : ℚ) (-51.17 : ℚ) (8.6 : ℚ) 2 15
    "Hudson Resources" 0 "Permitted" 45 61 70 75 85 40 50 1995 3 180

/-- Row 3 of the `load_data` table. -/
def motzfeldt : Deposit :=
  mkDeposit "Motzfeldt" (61.17 : ℚ) (-45.08 : ℚ) 340 (0.25 : ℚ) 8
    "Regency Mines" 0 "Exploration" 60 48 55 60 80 55 40 1962 4 25

/-- Row 4 of the `load_data` table. -/
def ilimaussaq : Deposit :=
  mkDeposit "Ilímaussaq Complex" (60.95 : ℚ) (-45.85 : ℚ) 500 (0.80 : ℚ) 18
    "Various" 5 "Multiple" 120 58 75 50 60 60 55 1806 4 15

/-- Row 5 of the `load_data` table. -/
def tikiusaaq : Deposit :=
  mkDeposit "Tikiusaaq" (64.22 : ℚ) (-51.95 : ℚ) 25 (1.50 : ℚ) 10
    "Unlicensed" 0 "Prospect" 30 42 60 70 90 30 35 2010 3 200

/-- Row 6 of the `load_data` table. -/
def qeqertaasaq : Deposit :=
  mkDeposit "Qeqertaasaq" (69.25 : ℚ) (-53.50 : ℚ) 15 (0.90 : ℚ) 12
    "Unlicensed" 0 "Prospect" 25 35 50 70 90 20 30 2015 2 350

/-- Row 7 of the `load_data` table. -/
def milneLand : Deposit :=
  mkDeposit "Milne Land" (70.75 : ℚ) (-26.50 : ℚ) 45 (0.65 : ℚ) 8
    "GreenRock Resources" 0 "Exploration" 40 40 45 65 85 25 40 2008 2 400

/-- Row 8 of the `load_data` table. -/
def niaqornaarsuk : Deposit :=
  mkDeposit "Niaqornaarsuk" (60.45 : ℚ) (-45.25 : ℚ) 120 (0.45 : ℚ) 14
    "Tanbreez Mining" 0 "Exploration" 55 55 65 70 85 50 45 2005 4 20

/-- Row 9 of the `load_data` table. -/
def qaqarssuk : Deposit :=
  mkDeposit "Qaqarssuk" (66.12 : ℚ) (-52.75 : ℚ) 35 (1.80 : ℚ) 6
    "NunaMinerals" 0 "Abandoned" 20 38 55 50 80 35 30 1990 3 150

/-- Row 10 of the `load_data` table. -/
def kangerlussuaq : Deposit :=
  mkDeposit "Kangerlussuaq" (67.02 : ℚ) (-50.70 : ℚ) 75 (0.55 : ℚ) 9
    "Government" 0 "Reserved" 35 45 50 40 70 45 50 2000 3 120

/-- Row 11 of the `load_data` table. -/
def gardarSouth : Deposit :=
  mkDeposit "Gardar South" (60.75 : ℚ) (-46.00 : ℚ) 2000 (0.70 : ℚ) 20
    "Multiple" 3 "Multiple" 150 62 70 45 65 70 60 1960 4 18

/-- Row 12 of the `load_data` table. -/
def narsaqArea : Deposit :=
  mkDeposit "Narsaq Area" (60.92 : ℚ) (-46.08 : ℚ) 180 (0.95 : ℚ) 11
    "ETM" (9.21 : ℚ) "Uncertain" 220 48 60 30 50 55 50 1960 4 15

/-- Row 13 of the `load_data` table. -/
def ivigtutArea : Deposit :=
  mkDeposit "Ivigtut Area" (61.20 : ℚ) (-48.17 : ℚ) 50 (0.30 : ℚ) 5
    "Historical" 0 "Closed" 15 25 30 80 85 60 20 1806 4 30

/-- Row 14 of the `load_data` table. -/
def skaergaard : Deposit :=
  mkDeposit "Skaergaard" (68.18 : ℚ) (-31.75 : ℚ) 65 (0.25 : ℚ) 7
    "Platina Resources" 0 "PGE Focus" 10 32 40 75 80 35 25 1930 2 280

/-- The full fifteen-row table built by `load_data`. -/
def loadData : List Deposit :=
  [tanbreez, kvanefjeld, sarfartoq, motzfeldt, ilimaussaq, tikiusaaq,
   qeqertaasaq, milneLand, niaqornaarsuk, qaqarssuk, kangerlussuaq,
   gardarSouth, narsaqArea, ivigtutArea, skaergaard]

/-- `uranium_scenario` radio options of Tab 3. -/
inductive UraniumPolicy
  | current
  | banLifted
  | stricter50
  deriving DecidableEq, Repr

/-- `chinese_scenario` radio options of Tab 3. -/
inductive ChinesePolicy
  | current
  | completeBan
  | relaxed
  deriving DecidableEq, Repr

/-- `price_scenario` select-slider options of Tab 3. -/
inductive PriceEnvironment
  | collapse50
  | decline25
  | stable
  | rally25
  | spike100
  deriving DecidableEq, Repr

/-- The four scenario controls of Tab 3. -/
structure ScenarioConfig where
  uranium_policy : UraniumPolicy
  chinese_policy : ChinesePolicy
  infra_boost : ℚ
  price_environment : PriceEnvironment
  deriving DecidableEq, Repr

/-- Uranium-ban branch of the Tab 3 scenario block, per row:
`Ban Lifted` adds 40/15 to regulatory/strategic where `uranium_ppm > 100`;
`Stricter Limits (50 ppm)` subtracts 30/10 where `uranium_ppm > 50`. -/
def uraniumStep (p : UraniumPolicy) (r : Deposit) : Deposit :=
  match p with
  | .current => r
  | .banLifted =>
      if r.uranium_ppm > 100 then
        { r with regulatory_score := r.regulatory_score + 40
                 strategic_score := r.strategic_score + 15 }
      else r
  | .stricter50 =>
      if r.uranium_ppm > 50 then
        { r with regulatory_score := r.regulatory_score - 30
                 strategic_score := r.strategic_score - 10 }
      else r

/-- Chinese-investment branch of the Tab 3 scenario block, per row:
`Complete Ban` subtracts 20/8 from ownership/strategic where
`chinese_stake_pct > 0`; `Restrictions Relaxed` subtracts 10 from
`geopolitical_score` on every row. -/
def chineseStep (p : ChinesePolicy) (r : Deposit) : Deposit :=
  match p with
  | .current => r
  | .completeBan =>
      if r.chinese_stake_pct > 0 then
        { r with ownership_score := r.ownership_score - 20
                 strategic_score := r.strategic_score - 8 }
      else r
  | .relaxed =>
      { r with geopolitical_score := r.geopolitical_score - 10 }

/-- `infra_impact = min(infra_boost * 3, 20)`. -/
def infraImpact (v : ℚ) : ℚ := min (v * 3) 20

/-- Infrastructure branch of the Tab 3 scenario block, per row, guarded by
`if infra_boost > 0`. -/
def infraStep (v : ℚ) (r : Deposit) : Deposit :=
  if v > 0 then
    { r with infrastructure_score := r.infrastructure_score + infraImpact v
             strategic_score := r.strategic_score + infraImpact v * (15 / 100) }
  else r

/-- Pandas `Series.clip(0, 100)` on one value. -/
def clampScore (x : ℚ) : ℚ := min (max x 0) 100

/-- The final loop of the scenario block: clip each of the five score
columns to [0, 100]. -/
def clampRow (r : Deposit) : Deposit :=
  { r with regulatory_score := clampScore r.regulatory_score
           ownership_score := clampScore r.ownership_score
           infrastructure_score := clampScore r.infrastructure_score
           geopolitical_score := clampScore r.geopolitical_score
           strategic_score := clampScore r.strategic_score }

/-- Everything the scenario block does to one row of the copied table. -/
def adjustRow (cfg : ScenarioConfig) (r : Deposit) : Deposit :=
  clampRow (infraStep cfg.infra_boost
    (chineseStep cfg.chinese_policy (uraniumStep cfg.uranium_policy r)))

/-- The per-step clamping variant the spec rules out: clip the five score
columns after each of the three effect steps instead of once at the end. -/
def adjustRowClampEachStep (cfg : ScenarioConfig) (r : Deposit) : Deposit :=
  clampRow (infraStep cfg.infra_boost
    (clampRow (chineseStep cfg.chinese_policy
      (clampRow (uraniumStep cfg.uranium_policy r)))))

/-- The two dataframes alive in the Tab 3 block: the baseline
(`filtered_df`) and the working copy (`scenario_df`). -/
structure ScenarioState where
  filtered_df : List Deposit
  scenario_df : List Deposit
  deriving DecidableEq, Repr

/-- `scenario_df = filtered_df.copy()`. -/
def initState (df : List Deposit) : ScenarioState :=
  { filtered_df := df, scenario_df := df }

/-- Column-wise uranium step on the working copy. -/
def applyUranium (p : UraniumPolicy) (s : ScenarioState) : ScenarioState :=
  { s with scenario_df := s.scenario_df.map (uraniumStep p) }

/-- Column-wise Chinese-investment step on the working copy. -/
def applyChinese (p : ChinesePolicy) (s : ScenarioState) : ScenarioState :=
  { s with scenario_df := s.scenario_df.map (chineseStep p) }

/-- Column-wise infrastructure step on the working copy. -/
def applyInfra (v : ℚ) (s : ScenarioState) : ScenarioState :=
  { s with scenario_df := s.scenario_df.map (infraStep v) }

/-- The clipping loop over the five score columns of the working copy. -/
def applyClamp (s : ScenarioState) : ScenarioState :=
  { s with scenario_df := s.scenario_df.map clampRow }

/-- The whole scenario computation of Tab 3, in the order the source runs
it: copy, uranium branch, Chinese-investment branch, infrastructure
branch, clipping loop. -/
def runTab3 (cfg : ScenarioConfig) (df : List Deposit) : ScenarioState :=
  applyClamp (applyInfra cfg.infra_boost
    (applyChinese cfg.chinese_policy
      (applyUranium cfg.uranium_policy (initState df))))

/-- The `score_change` column:
`scenario_df['strategic_score'] - filtered_df['strategic_score']`,
aligned row by row (the copy keeps the index). -/
def scoreChangeCol (s : ScenarioState) : List ℚ :=
  List.zipWith (fun a b => a.strategic_score - b.strategic_score)
    s.scenario_df s.filtered_df

/-- All five score fields of a row lie in [0, 100]. -/
def scoresInRange (r : Deposit) : Prop :=
  (0 ≤ r.regulatory_score ∧ r.regulatory_score ≤ 100) ∧
  (0 ≤ r.ownership_score ∧ r.ownership_score ≤ 100) ∧
  (0 ≤ r.infrastructure_score ∧ r.infrastructure_score ≤ 100) ∧
  (0 ≤ r.geopolitical_score ∧ r.geopolitical_score ≤ 100) ∧
  (0 ≤ r.strategic_score ∧ r.strategic_score ≤ 100)

instance (r : Deposit) : Decidable (scoresInRange r) := by
  unfold scoresInRange
  infer_instance

/-- A probe row (arbitrary baseline input) whose strategic score is low
enough that deferred clamping and per-step clamping disagree. -/
def probeRow : Deposit :=
  mkDeposit "probe" 0 0 0 0 0 "x" 10 "x" 60 5 0 10 50 50 50 2000 3 0

lemma clampScore_nonneg (x : ℚ) : 0 ≤ clampScore x := by
  unfold clampScore
  exact le_min (le_max_right x 0) (by norm_num)

lemma clampScore_le (x : ℚ) : clampScore x ≤ 100 :=
  min_le_right _ _

lemma clampScore_eq_self {x : ℚ} (h0 : 0 ≤ x) (h1 : x ≤ 100) :
    clampScore x = x := by
  unfold clampScore
  rw [max_eq_left h0, min_eq_left h1]

lemma scoresInRange_clampRow (r : Deposit) : scoresInRange (clampRow r) := by
  unfold scoresInRange clampRow
  refine ⟨⟨?_, ?_⟩, ⟨?_, ?_⟩, ⟨?_, ?_⟩, ⟨?_, ?_⟩, ⟨?_, ?_⟩⟩ <;>
    first
      | exact clampScore_nonneg _
      | exact clampScore_le _

lemma clampRow_eq_self {r : Deposit} (h : scoresInRange r) : clampRow r = r := by
  obtain ⟨⟨h1, h2⟩, ⟨h3, h4⟩, ⟨h5, h6⟩, ⟨h7, h8⟩, ⟨h9, h10⟩⟩ := h
  unfold clampRow
  rw [clampScore_eq_self h1 h2, clampScore_eq_self h3 h4,
    clampScore_eq_self h5 h6, clampScore_eq_self h7 h8,
    clampScore_eq_self h9 h10]

lemma runTab3_scenario_df (cfg : ScenarioConfig) (df : List Deposit) :
    (runTab3 cfg df).scenario_df = df.map (adjustRow cfg) := by
  simp [runTab3, applyClamp, applyInfra, applyChinese, applyUranium,
    initState, List.map_map, adjustRow, Function.comp]

lemma runTab3_filtered_df (cfg : ScenarioConfig) (df : List Deposit) :
    (runTab3 cfg df).filtered_df = df := rfl

lemma adjustRow_scoresInRange (cfg : ScenarioConfig) (r : Deposit) :
    scoresInRange (adjustRow cfg r) :=
  scoresInRange_clampRow _

lemma infraStep_zero (r : Deposit) : infraStep 0 r = r := by
  unfold infraStep
  simp

lemma adjustRow_identity (p : PriceEnvironment) {r : Deposit}
    (h : scoresInRange r) :
    adjustRow ⟨.current, .current, 0, p⟩ r = r := by
  show clampRow (infraStep 0 (chineseStep .current (uraniumStep .current r))) = r
  show clampRow (infraStep 0 r) = r
  rw [infraStep_zero, clampRow_eq_self h]

lemma zipWith_map_left_self {α β γ : Type} (f : β → α → γ) (g : α → β) :
    ∀ l : List α, List.zipWith f (l.map g) l = l.map fun x => f (g x) x
  | [] => rfl
  | a :: l => by
      simp [List.zipWith, zipWith_map_left_self f g l]

lemma uraniumStep_score_category (p : UraniumPolicy) (r : Deposit) :
    (uraniumStep p r).score_category = r.score_category := by
  cases p
  · rfl
  · unfold uraniumStep
    by_cases h : r.uranium_ppm > 100 <;> simp [h]
  · unfold uraniumStep
    by_cases h : r.uranium_ppm > 50 <;> simp [h]

lemma chineseStep_score_category (p : ChinesePolicy) (r : Deposit) :
    (chineseStep p r).score_category = r.score_category := by
  cases p
  · rfl
  · unfold chineseStep
    by_cases h : r.chinese_stake_pct > 0 <;> simp [h]
  · rfl

lemma infraStep_score_category (v : ℚ) (r : Deposit) :
    (infraStep v r).score_category = r.score_category := by
  unfold infraStep
  by_cases h : v > 0 <;> simp [h]

lemma adjustRow_score_category (cfg : ScenarioConfig) (r : Deposit) :
    (adjustRow cfg r).score_category = r.score_category := by
  unfold adjustRow
  show (clampRow _).score_category = _
  rw [show ∀ s : Deposit, (clampRow s).score_category = s.score_category
      from fun s => rfl]
  rw [infraStep_score_category, chineseStep_score_category,
    uraniumStep_score_category]

lemma loadData_scoresInRange : ∀ r ∈ loadData, scoresInRange r := by
  intro r hr
  simp only [loadData, List.mem_cons, List.not_mem_nil, or_false] at hr
  rcases hr with rfl|rfl|rfl|rfl|rfl|rfl|rfl|rfl|rfl|rfl|rfl|rfl|rfl|rfl|rfl <;>
    norm_num [scoresInRange, tanbreez, kvanefjeld, sarfartoq, motzfeldt,
      ilimaussaq, tikiusaaq, qeqertaasaq, milneLand, niaqornaarsuk, qaqarssuk,
      kangerlussuaq, gardarSouth, narsaqArea, ivigtutArea, skaergaard, mkDeposit]

/-- C1: for every baseline table, every scenario configuration and every
row of the scenario-adjusted table, each of the five adjusted score fields
lies in [0, 100]; moreover the clamp is applied exactly once after all
additive effects: at a concrete row and configuration the source's
deferred clamp differs from clamping after each step. -/
theorem C1_clamp_invariant :
    (∀ (cfg : ScenarioConfig) (df : List Deposit) (r : Deposit),
        r ∈ (runTab3 cfg df).scenario_df → scoresInRange r) ∧
    adjustRow ⟨.stricter50, .completeBan, 1, .stable⟩ probeRow ≠
      adjustRowClampEachStep ⟨.stricter50, .completeBan, 1, .stable⟩ probeRow := by
  constructor
  · intro cfg df r hr
    rw [runTab3_scenario_df] at hr
    obtain ⟨r0, _, rfl⟩ := List.mem_map.1 hr
    exact adjustRow_scoresInRange cfg r0
  · intro h
    have h2 := congrArg Deposit.strategic_score h
    norm_num [adjustRow, adjustRowClampEachStep, uraniumStep, chineseStep,
      infraStep, infraImpact, clampRow, clampScore, probeRow, mkDeposit,
      min_def, max_def] at h2

/-- C1 witness: the clamp invariant instantiated on the single-row table
holding the Kvanefjeld row, under the ban-lifted/relaxed/8.0 scenario. -/
theorem C1_clamp_invariant_witness :
    scoresInRange (adjustRow ⟨.banLifted, .relaxed, 8, .spike100⟩ kvanefjeld) :=
  C1_clamp_invariant.1 ⟨.banLifted, .relaxed, 8, .spike100⟩ [kvanefjeld] _
    (by rw [runTab3_scenario_df]
        exact List.mem_map_of_mem _ (List.mem_singleton_self _))

/-- C2: for every scenario configuration the baseline table held in the
state is unchanged by the scenario computation, which only builds the
adjusted table from the copy. -/
theorem C2_baseline_unchanged :
    ∀ (cfg : ScenarioConfig) (df : List Deposit),
      (runTab3 cfg df).filtered_df = df ∧
      (runTab3 cfg df).scenario_df = df.map (adjustRow cfg) :=
  fun cfg df => ⟨rfl, runTab3_scenario_df cfg df⟩

/-- C3: with both policies `current` and zero infrastructure investment,
for any price environment, the scenario-adjusted table equals the baseline
table exactly, provided the baseline scores lie in [0, 100] as the data
model requires (the final clip is the only operation that runs). -/
theorem C3_identity_scenario :
    ∀ (p : PriceEnvironment) (df : List Deposit),
      (∀ r ∈ df, scoresInRange r) →
      (runTab3 ⟨.current, .current, 0, p⟩ df).scenario_df = df := by
  intro p df h
  rw [runTab3_scenario_df]
  have aux : ∀ l : List Deposit, (∀ r ∈ l, scoresInRange r) →
      l.map (adjustRow ⟨.current, .current, 0, p⟩) = l := by
    intro l
    induction l with
    | nil => intro _; rfl
    | cons a t ih =>
        intro hl
        rw [List.map_cons, adjustRow_identity p (hl a (List.mem_cons_self a t)),
          ih fun r hr => hl r (List.mem_cons_of_mem a hr)]
  exact aux df h

/-- C3 witness: the identity scenario on the full fifteen-row `load_data`
table, whose scores all lie in [0, 100]. -/
theorem C3_identity_scenario_witness :
    (∀ r ∈ loadData, scoresInRange r) ∧
    (runTab3 ⟨.current, .current, 0, .stable⟩ loadData).scenario_df = loadData :=
  ⟨loadData_scoresInRange, C3_identity_scenario .stable loadData loadData_scoresInRange⟩

/-- C4: the uranium-policy step hits exactly the rows past its threshold:
under `Ban Lifted`, rows with `uranium_ppm > 100` gain 40/15 on
regulatory/strategic and all other rows are untouched; under
`Stricter Limits (50 ppm)`, rows with `uranium_ppm > 50` lose 30/10 and
all other rows are untouched; under `current` nothing changes; the final
scores are never negative (floor 0), and on the Narsaq Area row
(ppm 220, regulatory 30, strategic 48) the stricter scenario yields
regulatory 0 and strategic 38. -/
theorem C4_uranium_policy_step :
    ∀ (r : Deposit),
      uraniumStep .banLifted r =
        (if r.uranium_ppm > 100 then
          { r with regulatory_score := r.regulatory_score + 40
                   strategic_score := r.strategic_score + 15 }
         else r) ∧
      uraniumStep .stricter50 r =
        (if r.uranium_ppm > 50 then
          { r with regulatory_score := r.regulatory_score - 30
                   strategic_score := r.strategic_score - 10 }
         else r) ∧
      uraniumStep .current r = r ∧
      (∀ p : PriceEnvironment,
        0 ≤ (adjustRow ⟨.stricter50, .current, 0, p⟩ r).regulatory_score ∧
        0 ≤ (adjustRow ⟨.stricter50, .current, 0, p⟩ r).strategic_score) ∧
      (adjustRow ⟨.stricter50, .current, 0, .stable⟩ narsaqArea).regulatory_score = 0 ∧
      (adjustRow ⟨.stricter50, .current, 0, .stable⟩ narsaqArea).strategic_score = 38 := by
  intro r
  refine ⟨rfl, rfl, rfl, fun p => ⟨?_, ?_⟩, ?_, ?_⟩
  · exact (adjustRow_scoresInRange _ _).1.1
  · exact (adjustRow_scoresInRange _ _).2.2.2.2.1
  · norm_num [adjustRow, uraniumStep, chineseStep, infraStep, clampRow,
      clampScore, narsaqArea, mkDeposit, min_def, max_def]
  · norm_num [adjustRow, uraniumStep, chineseStep, infraStep, clampRow,
      clampScore, narsaqArea, mkDeposit, min_def, max_def]

/-- C5: the Chinese-investment step: under `Complete Ban`, exactly the
rows with `chinese_stake_pct > 0` lose 20/8 on ownership/strategic; under
`Restrictions Relaxed`, every row without exception loses 10 on
geopolitical — including the zero-stake Tanbreez row; under `current`
nothing changes. -/
theorem C5_chinese_policy_step :
    ∀ (r : Deposit),
      chineseStep .completeBan r =
        (if r.chinese_stake_pct > 0 then
          { r with ownership_score := r.ownership_score - 20
                   strategic_score := r.strategic_score - 8 }
         else r) ∧
      chineseStep .relaxed r =
        { r with geopolitical_score := r.geopolitical_score - 10 } ∧
      chineseStep .current r = r ∧
      tanbreez.chinese_stake_pct = 0 ∧
      (adjustRow ⟨.current, .relaxed, 0, .stable⟩ tanbreez).geopolitical_score =
        tanbreez.geopolitical_score - 10 :=
  fun r => ⟨rfl, rfl, rfl, rfl,
    by norm_num [adjustRow, uraniumStep, chineseStep, infraStep, clampRow,
      clampScore, tanbreez, mkDeposit, min_def, max_def]⟩

/-- C6: the infrastructure step adds `min(v * 3, 20)` to
`infrastructure_score` and `min(v * 3, 20) * 0.15` to `strategic_score`
of every row uniformly when `v > 0`, and changes nothing when `v = 0`;
`v = 8` gives impact 20, turning the Kvanefjeld row (infrastructure 65,
strategic 52) into infrastructure 85 and strategic 55. -/
theorem C6_infrastructure_step :
    ∀ (v : ℚ) (r : Deposit),
      infraStep v r =
        (if v > 0 then
          { r with infrastructure_score := r.infrastructure_score + min (v * 3) 20
                   strategic_score := r.strategic_score + min (v * 3) 20 * (15 / 100) }
         else r) ∧
      infraStep 0 r = r ∧
      infraImpact 8 = 20 ∧
      (adjustRow ⟨.current, .current, 8, .stable⟩ kvanefjeld).infrastructure_score = 85 ∧
      (adjustRow ⟨.current, .current, 8, .stable⟩ kvanefjeld).strategic_score = 55 := by
  intro v r
  refine ⟨?_, infraStep_zero r, ?_, ?_, ?_⟩
  · unfold infraStep infraImpact
    rfl
  · norm_num [infraImpact, min_def]
  · norm_num [adjustRow, uraniumStep, chineseStep, infraStep, infraImpact,
      clampRow, clampScore, kvanefjeld, mkDeposit, min_def, max_def]
  · norm_num [adjustRow, uraniumStep, chineseStep, infraStep, infraImpact,
      clampRow, clampScore, kvanefjeld, mkDeposit, min_def, max_def]

/-- C7: the `score_change` column equals, row for row, the adjusted
(post-clamp) strategic score minus the baseline strategic score of the
same row. -/
theorem C7_score_change :
    ∀ (cfg : ScenarioConfig) (df : List Deposit),
      scoreChangeCol (runTab3 cfg df) =
        df.map fun r => (adjustRow cfg r).strategic_score - r.strategic_score := by
  intro cfg df
  unfold scoreChangeCol
  rw [runTab3_scenario_df, runTab3_filtered_df,
    zipWith_map_left_self (fun a b => a.strategic_score - b.strategic_score)
      (adjustRow cfg) df]

/-- C8: `price_environment` has no effect: two runs differing only in the
price environment produce identical states (adjusted table and all) and
identical `score_change` columns. -/
theorem C8_price_environment_no_effect :
    ∀ (df : List Deposit) (u : UraniumPolicy) (c : ChinesePolicy) (v : ℚ)
      (p1 p2 : PriceEnvironment),
      runTab3 ⟨u, c, v, p1⟩ df = runTab3 ⟨u, c, v, p2⟩ df ∧
      scoreChangeCol (runTab3 ⟨u, c, v, p1⟩ df) =
        scoreChangeCol (runTab3 ⟨u, c, v, p2⟩ df) :=
  fun _ _ _ _ _ _ => ⟨rfl, rfl⟩

/-- C9 counterexample: the Kvanefjeld row has `uranium_ppm = 285 > 100`,
yet its `uranium_status` is not the string "Blocked" (the source writes
"Blocked (>100 ppm)"); likewise the Tanbreez row's label is not "Clear". -/
theorem C9_uranium_status_label_counterexample :
    kvanefjeld.uranium_ppm > 100 ∧ kvanefjeld.uranium_status ≠ "Blocked" ∧
    tanbreez.uranium_ppm ≤ 100 ∧ tanbreez.uranium_status ≠ "Clear" := by
  refine ⟨by norm_num [kvanefjeld, mkDeposit], ?_,
    by norm_num [tanbreez, mkDeposit], ?_⟩
  · show uraniumStatus 285 ≠ "Blocked"
    unfold uraniumStatus
    rw [if_pos (by norm_num : (285 : ℚ) > 100)]
    decide
  · show uraniumStatus 15 ≠ "Clear"
    unfold uraniumStatus
    rw [if_neg (by norm_num : ¬ (15 : ℚ) > 100)]
    decide

/-- C9 amended: at load time, for every row, `ownership_type` is
"Chinese Exposure" when `chinese_stake_pct > 0` and "Western Control"
otherwise, and `uranium_status` is "Blocked (>100 ppm)" when
`uranium_ppm > 100` and "Clear (<100 ppm)" otherwise. -/
theorem C9_derived_label_functions :
    ∀ r ∈ loadData,
      r.ownership_type =
        (if r.chinese_stake_pct > 0 then "Chinese Exposure" else "Western Control") ∧
      r.uranium_status =
        (if r.uranium_ppm > 100 then "Blocked (>100 ppm)" else "Clear (<100 ppm)") := by
  intro r hr
  simp only [loadData, List.mem_cons, List.not_mem_nil, or_false] at hr
  rcases hr with rfl|rfl|rfl|rfl|rfl|rfl|rfl|rfl|rfl|rfl|rfl|rfl|rfl|rfl|rfl <;>
    exact ⟨rfl, rfl⟩

/-- C9 witness: the amended label rules evaluated on the Kvanefjeld row
of the load-time table. -/
theorem C9_derived_label_functions_witness :
    kvanefjeld.ownership_type =
      (if kvanefjeld.chinese_stake_pct > 0 then "Chinese Exposure"
       else "Western Control") ∧
    kvanefjeld.uranium_status =
      (if kvanefjeld.uranium_ppm > 100 then "Blocked (>100 ppm)"
       else "Clear (<100 ppm)") :=
  C9_derived_label_functions kvanefjeld (by simp [loadData])

/-- C10: the scenario computation never recomputes `score_category`: the
adjusted table carries the baseline labels unchanged for every
configuration; and under `Ban Lifted` the Kvanefjeld row keeps its
baseline label "Medium" while its adjusted strategic score 67 falls in
the "High" band of the load-time categorization. -/
theorem C10_score_category_not_recomputed :
    (∀ (cfg : ScenarioConfig) (df : List Deposit),
        ((runTab3 cfg df).scenario_df).map (fun r => r.score_category) =
          df.map fun r => r.score_category) ∧
    kvanefjeld.score_category = some "Medium" ∧
    (adjustRow ⟨.banLifted, .current, 0, .stable⟩ kvanefjeld).score_category =
      some "Medium" ∧
    (adjustRow ⟨.banLifted, .current, 0, .stable⟩ kvanefjeld).strategic_score = 67 ∧
    scoreCategory 67 = some "High" := by
  refine ⟨?_,
    by norm_num [kvanefjeld, mkDeposit, scoreCategory],
    by rw [adjustRow_score_category]
       norm_num [kvanefjeld, mkDeposit, scoreCategory],
    by norm_num [adjustRow, uraniumStep, chineseStep, infraStep, clampRow,
      clampScore, kvanefjeld, mkDeposit, min_def, max_def],
    by norm_num [scoreCategory]⟩
  intro cfg df
  rw [runTab3_scenario_df, List.map_map]
  have h : ((fun r : Deposit => r.score_category) ∘ adjustRow cfg) =
      fun r : Deposit => r.score_category :=
    funext fun r => adjustRow_score_category cfg r
  rw [h]

end GreenlandREE
